import Mathlib

/-!
Shallow embedding of the rustless host engine
(src/host/fxnContainer/rustless_host_engine) for checking the
natural-language specification against the code.

Modelling conventions, each justified by the Rust source:

* The SQLite registry (storage.rs) is a `List FunctionAppRec`; the `id`
  primary key is a `Nat` standing for the `Uuid`, and `Uuid::parse_str`
  at the API boundary is an oracle `Option Nat` (a `none` models a
  malformed id string).  Reads fail exactly when no row matches
  (`QueryReturnedNoRows`); write failures, where a claim depends on
  them, are explicit boolean oracles in the request environment.
* `SELECT`/`UPDATE ... WHERE id = ?` touch every row whose id matches,
  so the model updates by `List.map` and reads by `List.find?`.
* Docker (docker.rs) is modelled by two lists in the state: `containers`
  (one entry per running container, holding the image tag that identifies
  its `docker ps` line) and `images` (the tags built by `docker build
  -t`).  The liveness probe is the source's `line.contains(&tag)`: a
  substring scan over those lines, so one app's tag occurring inside
  another app's line counts as a match.  External command outcomes
  (`pick_unused_port`, `docker run`, `docker build`, the `unzip` spawn)
  are boolean oracles.
* `Command::output()` in Rust fails only when the command cannot be
  spawned; a spawned `unzip` that exits non-zero (corrupt archive) still
  yields `Ok`, so corruption shows up only as an unexpected number of
  extracted entries.  The model mirrors this: `spawnOk` covers the spawn
  and `extracted` is whatever the tool unpacked (nothing, for corrupt
  bytes).
* Rust `to_lowercase()` composed with `replace(" ", "-")` acts
  per character (space to dash, otherwise lowercase); the model maps the
  equivalent per-character function over the string (ASCII lowercasing,
  which covers the names used here).
* Response bodies keep the source message texts (apostrophes elided);
  the JSON status payload is modelled by the serde variant tag.
-/

/-- The status of a function app, from rustless_shared/src/lib.rs. -/
inductive FunctionAppStatus where
  | NotRegistered
  | Registered
  | Building
  | Ready
  | Running
  | Error
deriving DecidableEq, Repr

/-- One row of the `function_apps` table (storage.rs, `SqliteFunctionApp`):
name, id, status, created_at, port.  `port` is the u16 column, 0 when the
app is not running. -/
structure FunctionAppRec where
  name : String
  id : Nat
  status : FunctionAppStatus
  created_at : Nat
  port : Nat
deriving DecidableEq, Repr

/-- An HTTP response: status code and body text. -/
structure HttpResponse where
  code : Nat
  body : String
deriving DecidableEq, Repr

/-- The world state the host engine acts on: the registry table plus the
docker daemon's running containers and built images (each named by tag). -/
structure HostState where
  registry : List FunctionAppRec
  containers : List String
  images : List String
deriving DecidableEq, Repr

/-- The state at server start: empty registry, no containers, no images. -/
def initialState : HostState := ⟨[], [], []⟩

/-- The per-character action of `name.replace(" ", "-").to_lowercase()`
in docker.rs: a space becomes a dash, anything else is lowercased. -/
def tagChar (c : Char) : Char := if c = ' ' then '-' else c.toLower

/-- docker.rs `get_container_tag`: the image/container tag derived from a
function app name. -/
def get_container_tag (function_app_name : String) : String :=
  String.mk (function_app_name.data.map tagChar) ++ "-container"

/-- The tag of a registry record's app. -/
def TagOf (r : FunctionAppRec) : String := get_container_tag r.name

/-- Rust `str::contains`: the needle occurs as a contiguous substring of
the haystack. -/
def str_contains (haystack needle : String) : Bool :=
  decide (needle.data <:+: haystack.data)

/-- docker.rs `is_container_running`: scan every `docker ps` output line
for the app's tag with `line.contains(&tag)` — a substring match, so one
app's tag occurring inside another app's line also counts as running.
The model keeps, per running container, its image tag as the identifying
content of its `docker ps` line, and performs the same substring scan. -/
def is_container_running (s : HostState) (function_app_name : String) : Bool :=
  s.containers.any fun line => str_contains line (get_container_tag function_app_name)

/-- Oracle outcomes for docker.rs `start_function_app`: whether
`pick_unused_port` found a port, which port, and whether `docker run`
succeeded (spawn ok, output free of "Error"). -/
structure DockerRunEnv where
  portPickOk : Bool
  port : Nat
  runOk : Bool
deriving DecidableEq, Repr

/-- docker.rs `start_function_app`: pick a free port and `docker run` the
app's image; on success the tag joins the running containers. -/
def docker_start_function_app (s : HostState) (function_app_name : String)
    (env : DockerRunEnv) : Except String (Nat × HostState) :=
  if !env.portPickOk then .error "Error getting next free port"
  else if !env.runOk then .error "Error starting container"
  else .ok (env.port,
    { s with containers := get_container_tag function_app_name :: s.containers })

/-- Oracle outcomes for docker.rs `build_function_app_container`: whether
the Dockerfile write succeeded and whether `docker build` succeeded. -/
structure BuildEnv where
  dockerfileWriteOk : Bool
  buildOk : Bool
deriving DecidableEq, Repr

/-- Adding a tag to the built images: building an already-present tag
overwrites the same image identity, leaving the set unchanged. -/
def insertImage (images : List String) (tag : String) : List String :=
  if images.contains tag then images else tag :: images

/-- docker.rs `build_function_app_container`: write the embedded
Dockerfile next to the staged code and `docker build -t tag .`. -/
def build_function_app_container (s : HostState) (function_app_name : String)
    (env : BuildEnv) : Except String HostState :=
  if !env.dockerfileWriteOk then .error "Error writing Dockerfile"
  else if !env.buildOk then .error "Error building Dockerfile"
  else .ok { s with images := insertImage s.images (get_container_tag function_app_name) }

/-- storage.rs `is_name_in_use`: `SELECT COUNT(*) ... WHERE name = ?`. -/
def is_name_in_use (s : HostState) (name : String) : Bool :=
  s.registry.any (fun r => r.name == name)

/-- storage.rs `get_function_app_name` row lookup: first row whose id
matches. -/
def findApp (s : HostState) (id : Nat) : Option FunctionAppRec :=
  s.registry.find? (fun r => r.id == id)

/-- storage.rs `get_function_app_name`: `SELECT name ... WHERE id = ?`,
`QueryReturnedNoRows` when the id has no row. -/
def get_function_app_name (s : HostState) (id : Nat) : Except String String :=
  match findApp s id with
  | some r => .ok r.name
  | none => .error "Query returned no rows"

/-- storage.rs `add_new_function_app`: insert a row with status
`Registered` (code 1) and port 0.  The fresh `Uuid::new_v4()` and the
creation time are lifted to parameters. -/
def add_new_function_app (s : HostState) (name : String) (id : Nat) (time : Nat) :
    HostState :=
  { s with registry := s.registry ++ [⟨name, id, .Registered, time, 0⟩] }

/-- storage.rs `set_function_app_status`: `UPDATE function_apps SET
status = ? WHERE id = ?`; succeeds (0 rows changed) even when no row
matches. -/
def set_function_app_status (s : HostState) (id : Nat) (status : FunctionAppStatus) :
    HostState :=
  { s with registry :=
      s.registry.map fun r => if r.id = id then { r with status := status } else r }

/-- storage.rs `set_function_app_running`: `UPDATE function_apps SET
status = 4, port = ? WHERE id = ?` — status Running and port written
together. -/
def set_function_app_running (s : HostState) (id : Nat) (port : Nat) : HostState :=
  { s with registry :=
      s.registry.map fun r =>
        if r.id = id then { r with status := .Running, port := port } else r }

/-- function_app_builder.rs `get_function_app_status`: prove the id has a
record by reading its name, then derive Running or Ready from the docker
probe. -/
def FunctionAppBuilder.get_function_app_status (s : HostState) (id : Nat) :
    Except String FunctionAppStatus :=
  match get_function_app_name s id with
  | .error e => .error ("Cannot get function app name from ID: " ++ e ++
      ". Does this function app exist?")
  | .ok name =>
      if is_container_running s name then .ok .Running else .ok .Ready

/-- The serde wire tag of a status, as serialized into the JSON body of
the status endpoint. -/
def statusText : FunctionAppStatus → String
  | .NotRegistered => "NotRegistered"
  | .Registered => "Registered"
  | .Building => "Building"
  | .Ready => "Ready"
  | .Running => "Running"
  | .Error => "Error"

/-- Request environment of the status endpoint: the `Uuid::parse_str`
outcome and whether the `let _ = set_function_app_status` write
succeeded. -/
structure StatusEnv where
  parsedId : Option Nat
  statusWriteOk : Bool
deriving DecidableEq, Repr

/-- main.rs `get_function_app_status` route: derive the status via the
builder, persist it best-effort (result discarded), return it. -/
def get_function_app_status_route (s : HostState) (env : StatusEnv) :
    HttpResponse × HostState :=
  match env.parsedId with
  | none => (⟨400, "Error parsing ID"⟩, s)
  | some id =>
    match FunctionAppBuilder.get_function_app_status s id with
    | .error e => (⟨500, e⟩, s)
    | .ok st =>
        (⟨200, statusText st⟩,
         if env.statusWriteOk then set_function_app_status s id st else s)

/-- Request environment of the start endpoint. -/
structure StartEnv where
  parsedId : Option Nat
  statusWriteOk : Bool
  run : DockerRunEnv
  runningWriteOk : Bool
deriving DecidableEq, Repr

/-- main.rs `start_function_app` route: derive the status via the
builder, persist it best-effort, then act on the derived status — Ready
starts the container and records Running plus the port, Running is a
no-op success, the remaining arms reject with 500. -/
def start_function_app_route (s : HostState) (env : StartEnv) :
    HttpResponse × HostState :=
  match env.parsedId with
  | none => (⟨400, "Error parsing ID"⟩, s)
  | some id =>
    match FunctionAppBuilder.get_function_app_status s id with
    | .error e => (⟨500, e⟩, s)
    | .ok st =>
      let s1 := if env.statusWriteOk then set_function_app_status s id st else s
      match st with
      | .Ready =>
        match get_function_app_name s1 id with
        | .error e => (⟨400, "Cannot get function app name from ID: " ++ e⟩, s1)
        | .ok name =>
          match docker_start_function_app s1 name env.run with
          | .error e => (⟨500, "Error starting function app: " ++ e⟩, s1)
          | .ok (port, s2) =>
            if env.runningWriteOk then
              (⟨200, "Function app is already running"⟩,
               set_function_app_running s2 id port)
            else (⟨500, "Error updating function app status"⟩, s2)
      | .Running => (⟨200, "Function app is already running"⟩, s1)
      | .Building =>
          (⟨500, "Cannot start function app, it is currently building"⟩, s1)
      | .Error =>
          (⟨500, "Cannot start function app, it is in an error state"⟩, s1)
      | .Registered =>
          (⟨500, "Cannot start function app, it does not have any code yet"⟩, s1)
      | .NotRegistered =>
          (⟨500, "Cannot start function app, it does not exist"⟩, s1)

/-- main.rs `create_function_app` route: reject a name already in use,
otherwise insert; a uuid collision would violate the `id` primary key
and surface as a 500. -/
def create_function_app_route (s : HostState) (name : String) (id : Nat) (time : Nat) :
    HttpResponse × HostState :=
  if is_name_in_use s name then (⟨400, "Name is already in use"⟩, s)
  else if s.registry.any (fun r => r.id == id) then
    (⟨500, "UNIQUE constraint failed"⟩, s)
  else (⟨200, toString id⟩, add_new_function_app s name id time)

/-- Oracle outcomes for function_app_builder.rs `unzip_file_in_temp_dir`:
file creation/write, the `unzip` spawn, the entries the tool extracted
(empty when the bytes are not a zip archive — `Command::output` still
returns `Ok` then), zip deletion, directory listing, and the rename. -/
structure UnzipEnv where
  createOk : Bool
  writeOk : Bool
  spawnOk : Bool
  extracted : List String
  removeOk : Bool
  readDirOk : Bool
  renameOk : Bool
deriving DecidableEq, Repr

/-- function_app_builder.rs `unzip_file_in_temp_dir`: write `code.zip`
into the fresh temp dir, run `unzip`, delete the zip, require exactly one
top-level entry, rename it to `code`.  The second component is the temp
directory's top-level contents when the function returns (the `paths.next()
= None` arm of the source is unreachable once the count is 1). -/
def unzip_file_in_temp_dir (env : UnzipEnv) : Except String Unit × List String :=
  if !env.createOk then (.error "Error creating zip file", [])
  else if !env.writeOk then (.error "Error writing zip file", ["code.zip"])
  else if !env.spawnOk then (.error "Error unzipping file", ["code.zip"])
  else if !env.removeOk then (.error "Error deleting file", "code.zip" :: env.extracted)
  else if !env.readDirOk then (.error "Error reading directory", env.extracted)
  else if env.extracted.length != 1 then
    (.error "Zip file must contain exactly one folder", env.extracted)
  else if !env.renameOk then (.error "Error renaming output folder", env.extracted)
  else (.ok (), ["code"])

/-- Request environment of the code-upload endpoint: the parse oracle,
the outcome of each storage write and pipeline step in source order.
`errWriteOk` is the single best-effort `set_function_app_status(..,
Error)` compensating write (at most one fires per request). -/
structure UploadEnv where
  parsedId : Option Nat
  buildingWriteOk : Bool
  errWriteOk : Bool
  decodeOk : Bool
  tempdirOk : Bool
  unzip : UnzipEnv
  build : BuildEnv
  readyWriteOk : Bool
deriving DecidableEq, Repr

/-- The `let _ = storage::set_function_app_status(&conn, &id, &Error)`
compensating write: best effort, its own failure is discarded. -/
def compensateError (s : HostState) (id : Nat) (writeOk : Bool) : HostState :=
  if writeOk then set_function_app_status s id .Error else s

/-- main.rs `post_function_app_code` route: check the id is registered,
set Building, decode the base64 body, stage the archive in a temp dir,
build the container image, set Ready; on any pipeline failure force the
status to Error (best effort) and surface the step's error. -/
def post_function_app_code_route (s : HostState) (env : UploadEnv) :
    HttpResponse × HostState :=
  match env.parsedId with
  | none => (⟨400, "Error parsing ID"⟩, s)
  | some id =>
    match get_function_app_name s id with
    | .error e => (⟨400, "Cannot get function app name from ID: " ++ e⟩, s)
    | .ok name =>
      if !env.buildingWriteOk then
        (⟨500, "Error updating status"⟩, compensateError s id env.errWriteOk)
      else
        let s1 := set_function_app_status s id .Building
        if !env.decodeOk then
          (⟨400, "Invalid base64"⟩, compensateError s1 id env.errWriteOk)
        else if !env.tempdirOk then
          (⟨400, "Error creating temporary directory"⟩,
           compensateError s1 id env.errWriteOk)
        else
          match (unzip_file_in_temp_dir env.unzip).1 with
          | .error e =>
              (⟨500, "Could not write zip file: " ++ e⟩,
               compensateError s1 id env.errWriteOk)
          | .ok _ =>
            match build_function_app_container s1 name env.build with
            | .error e =>
                (⟨400, "Error: " ++ e⟩, compensateError s1 id env.errWriteOk)
            | .ok s2 =>
              if !env.readyWriteOk then
                (⟨500, "Error updating status"⟩, compensateError s2 id env.errWriteOk)
              else (⟨200, ""⟩, set_function_app_status s2 id .Ready)

/-- One client-visible operation against the host engine, with its
request environment. -/
inductive Op where
  | register (name : String) (id : Nat) (time : Nat)
  | upload (env : UploadEnv)
  | start (env : StartEnv)
  | statusQ (env : StatusEnv)
deriving DecidableEq, Repr

/-- The state after handling one operation. -/
def applyOp (s : HostState) : Op → HostState
  | .register name id time => (create_function_app_route s name id time).2
  | .upload env => (post_function_app_code_route s env).2
  | .start env => (start_function_app_route s env).2
  | .statusQ env => (get_function_app_status_route s env).2

/-- The state after handling a sequence of operations. -/
def runOps (s : HostState) (ops : List Op) : HostState := ops.foldl applyOp s

/-- Environment discipline for one operation: a registration only for a
tag that neither contains nor is contained in a registered name's tag
(the probe is a substring scan, so tag aliasing — one tag inside the
other — can alias another app's container), and a start whose allocated
port is non-zero (portpicker never yields port 0) with a succeeding
running-status write. -/
def opOKb (s : HostState) : Op → Bool
  | .register name _ _ =>
      s.registry.all fun r =>
        !(str_contains (get_container_tag name) (TagOf r)) &&
        !(str_contains (TagOf r) (get_container_tag name))
  | .upload _ => true
  | .start env => (env.run.port != 0) && env.runningWriteOk
  | .statusQ _ => true

/-- Environment discipline along a whole operation sequence. -/
def opsWFb : HostState → List Op → Bool
  | _, [] => true
  | s, op :: rest => opOKb s op && opsWFb (applyOp s op) rest

/-- The stored status of the app with the given id. -/
def appStatus (s : HostState) (id : Nat) : Option FunctionAppStatus :=
  (findApp s id).map (fun r => r.status)

/-- The stored port of the app with the given id. -/
def appPort (s : HostState) (id : Nat) : Option Nat :=
  (findApp s id).map (fun r => r.port)

/-- How many registry rows carry the given name. -/
def countName (s : HostState) (name : String) : Nat :=
  (s.registry.filter (fun r => r.name == name)).length

/-- Splits a character list into maximal whitespace-free words
(accumulator holds the current word reversed). -/
def splitWS : List Char → List Char → List (List Char)
  | acc, [] => if acc = [] then [] else [acc.reverse]
  | acc, c :: rest =>
      if c.isWhitespace then
        if acc = [] then splitWS [] rest else acc.reverse :: splitWS [] rest
      else splitWS (c :: acc) rest

/-- Joins words with a single dash between consecutive words. -/
def joinDash : List (List Char) → List Char
  | [] => []
  | [w] => w
  | w :: rest => w ++ '-' :: joinDash rest

/-- Modelled from the spec: the image naming described as "lower-cased,
whitespace normalized to a single separator" — lowercase the name, split
it at whitespace runs, join the words with single dashes, append the
container suffix.  For comparison against `get_container_tag`. -/
def spec_image_tag (name : String) : String :=
  String.mk (joinDash (splitWS [] (name.data.map Char.toLower))) ++ "-container"

/-- All staging oracles succeed and the archive unpacked to exactly one
top-level entry. -/
def unzipOkb (u : UnzipEnv) : Bool :=
  u.createOk && u.writeOk && u.spawnOk && u.removeOk && u.readDirOk &&
  (u.extracted.length == 1) && u.renameOk

/-- Every step of the upload pipeline succeeds: the Building write, the
base64 decode, the temp dir, the staging, the image build, and the Ready
write. -/
def pipelineOkb (env : UploadEnv) : Bool :=
  env.buildingWriteOk && env.decodeOk && env.tempdirOk && unzipOkb env.unzip &&
  env.build.dockerfileWriteOk && env.build.buildOk && env.readyWriteOk

/-- The port/status invariant material: Running rows carry a non-zero
port, rows whose tag the substring probe matches against some live
container line carry a non-zero port, every live container line is the
tag of a registered row, and rows have pairwise distinct ids and
pairwise non-aliasing tags (neither tag a substring of the other). -/
def PortInv (s : HostState) : Prop :=
  (∀ r ∈ s.registry, r.status = .Running → r.port ≠ 0) ∧
  (∀ r ∈ s.registry,
    (∃ line ∈ s.containers, (TagOf r).data <:+: line.data) → r.port ≠ 0) ∧
  (∀ line ∈ s.containers, ∃ r, r ∈ s.registry ∧ TagOf r = line) ∧
  s.registry.Pairwise (fun a b => a.id ≠ b.id) ∧
  s.registry.Pairwise (fun a b =>
    ¬ (TagOf a).data <:+: (TagOf b).data ∧ ¬ (TagOf b).data <:+: (TagOf a).data)

/-- A staging environment in which every filesystem step works and the
archive unpacks to a single `src` folder. -/
def okUnzip : UnzipEnv := ⟨true, true, true, ["src"], true, true, true⟩

/-- An upload request for app id 1 whose whole pipeline succeeds. -/
def okUpload : UploadEnv := ⟨some 1, true, true, true, true, okUnzip, ⟨true, true⟩, true⟩

/-- An upload request for app id 1 whose base64 decode fails (the
compensating Error write succeeds). -/
def badBase64Upload : UploadEnv :=
  ⟨some 1, true, true, false, true, okUnzip, ⟨true, true⟩, true⟩

/-- A start request for app id 1: docker picks port 3000 and the run and
both writes succeed. -/
def okStart : StartEnv := ⟨some 1, true, ⟨true, 3000, true⟩, true⟩

/-- Register "demo", upload code successfully, start it. -/
def startOps : List Op := [.register "demo" 1 5, .upload okUpload, .start okStart]

/-- Register "demo", upload code, start it, then upload again with a bad
base64 body: the final row is Error with the stale port 3000. -/
def demoOps : List Op := startOps ++ [.upload badBase64Upload]

/-- Register "a" (tag a-container) and "a a" (tag a-a-container), upload
and start "a a", then query the status of "a": the substring probe
matches a-container inside the a-a-container line, so app "a" is marked
Running with port 0. -/
def aliasOps : List Op :=
  [.register "a" 1 5, .register "a a" 2 6,
   .upload ⟨some 2, true, true, true, true, okUnzip, ⟨true, true⟩, true⟩,
   .start ⟨some 2, true, ⟨true, 3000, true⟩, true⟩,
   .statusQ ⟨some 1, true⟩]

theorem find?_map_id_eq (l : List FunctionAppRec) (u : FunctionAppRec → FunctionAppRec)
    (hu : ∀ r, (u r).id = r.id) (id : Nat) :
    (l.map u).find? (fun r => r.id == id) = (l.find? (fun r => r.id == id)).map u := by
  rw [List.find?_map]
  have hp : ((fun r : FunctionAppRec => r.id == id) ∘ u) = (fun r => r.id == id) := by
    funext r
    simp [Function.comp, hu]
  rw [hp]

theorem findApp_set_status (s : HostState) (id id' : Nat) (st : FunctionAppStatus) :
    findApp (set_function_app_status s id st) id' =
      (findApp s id').map (fun r => if r.id = id then { r with status := st } else r) := by
  unfold findApp set_function_app_status
  exact find?_map_id_eq _ _ (fun r => by by_cases h : r.id = id <;> simp [h]) id'

theorem findApp_set_running (s : HostState) (id id' : Nat) (p : Nat) :
    findApp (set_function_app_running s id p) id' =
      (findApp s id').map
        (fun r => if r.id = id then { r with status := .Running, port := p } else r) := by
  unfold findApp set_function_app_running
  exact find?_map_id_eq _ _ (fun r => by by_cases h : r.id = id <;> simp [h]) id'

theorem id_of_findApp (s : HostState) (id : Nat) (r : FunctionAppRec)
    (h : findApp s id = some r) : r.id = id := by
  have := List.find?_some h
  simpa using this

theorem mem_of_findApp (s : HostState) (id : Nat) (r : FunctionAppRec)
    (h : findApp s id = some r) : r ∈ s.registry :=
  List.mem_of_find?_eq_some h

theorem appStatus_set_status (s : HostState) (id : Nat) (r : FunctionAppRec)
    (h : findApp s id = some r) (st : FunctionAppStatus) :
    appStatus (set_function_app_status s id st) id = some st := by
  unfold appStatus
  rw [findApp_set_status, h]
  simp [id_of_findApp s id r h]

theorem appStatus_set_running (s : HostState) (id : Nat) (r : FunctionAppRec)
    (h : findApp s id = some r) (p : Nat) :
    appStatus (set_function_app_running s id p) id = some .Running ∧
    appPort (set_function_app_running s id p) id = some p := by
  unfold appStatus appPort
  rw [findApp_set_running, h]
  simp [id_of_findApp s id r h]

/-- C5: the claim reads staging as failing with a distinct CorruptArchive
error when the bytes cannot be unpacked.  In the source,
`Command::output()` only fails when `unzip` cannot be spawned; a spawned
`unzip` given corrupt bytes exits non-zero without raising that error and
extracts nothing, so the request falls through to the layout check and
fails with the exactly-one-folder (MalformedLayout) message instead of a
distinct corrupt-archive one. -/
theorem unzip_corrupt_bytes_hit_layout_error :
    (unzip_file_in_temp_dir ⟨true, true, true, [], true, true, true⟩).1 =
      .error "Zip file must contain exactly one folder" ∧
    (unzip_file_in_temp_dir ⟨true, true, true, [], true, true, true⟩).1 ≠
      .error "Error unzipping file" := by
  refine ⟨rfl, ?_⟩
  intro h
  exact absurd (Except.error.inj h) (by decide)

/-- C5 (amended): the distinct unpack error ("Error unzipping file") is
raised only when the `unzip` tool cannot be invoked at all; when the tool
runs but the bytes cannot be unpacked, extraction yields no entries and
staging fails with the MalformedLayout (exactly-one-folder) error. -/
theorem unzip_error_classification (env : UnzipEnv)
    (hc : env.createOk = true) (hw : env.writeOk = true) :
    (env.spawnOk = false →
      (unzip_file_in_temp_dir env).1 = .error "Error unzipping file") ∧
    (env.spawnOk = true → env.removeOk = true → env.readDirOk = true →
      env.extracted = [] →
      (unzip_file_in_temp_dir env).1 =
        .error "Zip file must contain exactly one folder") := by
  obtain ⟨c, w, sp, ex, rm, rd, rn⟩ := env
  constructor
  · intro hs
    simp_all [unzip_file_in_temp_dir]
  · intro hs hrm hrd hex
    simp_all [unzip_file_in_temp_dir]

theorem unzip_error_classification_witness :
    (unzip_file_in_temp_dir ⟨true, true, false, [], true, true, true⟩).1 =
      .error "Error unzipping file" :=
  (unzip_error_classification ⟨true, true, false, [], true, true, true⟩ rfl rfl).1 rfl

/-- C6: when every filesystem step succeeds, an archive unpacking to
exactly one top-level entry stages successfully and that entry is renamed
to the canonical `code` entry of the working directory; an archive
unpacking to zero or several top-level entries fails with the
exactly-one-folder error and the directory keeps the unrenamed entries
(no canonical `code` path is produced by staging). -/
theorem unzip_exactly_one_entry (env : UnzipEnv)
    (hc : env.createOk = true) (hw : env.writeOk = true) (hs : env.spawnOk = true)
    (hrm : env.removeOk = true) (hrd : env.readDirOk = true) (hrn : env.renameOk = true) :
    (env.extracted.length = 1 →
      unzip_file_in_temp_dir env = (.ok (), ["code"])) ∧
    (env.extracted.length ≠ 1 →
      unzip_file_in_temp_dir env =
        (.error "Zip file must contain exactly one folder", env.extracted)) := by
  obtain ⟨c, w, sp, ex, rm, rd, rn⟩ := env
  constructor
  · intro hl
    simp_all [unzip_file_in_temp_dir]
  · intro hl
    simp_all [unzip_file_in_temp_dir]

theorem unzip_exactly_one_entry_witness :
    unzip_file_in_temp_dir ⟨true, true, true, ["src"], true, true, true⟩ =
      (.ok (), ["code"]) ∧
    unzip_file_in_temp_dir ⟨true, true, true, ["a", "b"], true, true, true⟩ =
      (.error "Zip file must contain exactly one folder", ["a", "b"]) :=
  ⟨(unzip_exactly_one_entry ⟨true, true, true, ["src"], true, true, true⟩
      rfl rfl rfl rfl rfl rfl).1 rfl,
   (unzip_exactly_one_entry ⟨true, true, true, ["a", "b"], true, true, true⟩
      rfl rfl rfl rfl rfl rfl).2 (by decide)⟩

/-- C9: the claim describes the tag derivation as lower-casing with
whitespace normalized to a single separator.  The source replaces each
space character by a dash: two consecutive spaces yield two consecutive
dashes (and non-space whitespace is untouched), so the computed tag
differs from the normalized-single-separator reading. -/
theorem container_tag_not_whitespace_normalized :
    get_container_tag "A  b" = "a--b-container" ∧
    spec_image_tag "A  b" = "a-b-container" ∧
    get_container_tag "A  b" ≠ spec_image_tag "A  b" := by
  refine ⟨by decide, by decide, ?_⟩
  intro h
  rw [show spec_image_tag "A  b" = "a-b-container" from by decide] at h
  exact absurd h (by decide)

/-- C9 (amended): the image name is a deterministic function of the app
name — lower-cased with each space character replaced by a dash
(consecutive spaces are not collapsed, other whitespace is untouched) —
and build, run, and the liveness probe all derive the tag through that
same derivation, so two names with the same derived tag (in particular,
repeated builds of the same app) address the same image identity, and a
repeated build leaves the image set unchanged. -/
theorem shared_tag_derivation (s : HostState) (n1 n2 : String)
    (benv : BuildEnv) (renv : DockerRunEnv)
    (h : get_container_tag n1 = get_container_tag n2) :
    get_container_tag n1 = String.mk (n1.data.map tagChar) ++ "-container" ∧
    is_container_running s n1 = is_container_running s n2 ∧
    build_function_app_container s n1 benv = build_function_app_container s n2 benv ∧
    docker_start_function_app s n1 renv = docker_start_function_app s n2 renv ∧
    insertImage (insertImage s.images (get_container_tag n1)) (get_container_tag n1) =
      insertImage s.images (get_container_tag n1) := by
  refine ⟨rfl, ?_, ?_, ?_, ?_⟩
  · simp [is_container_running, h]
  · simp [build_function_app_container, h]
  · simp [docker_start_function_app, h]
  · by_cases hc : s.images.contains (get_container_tag n1) = true
    · have hmem : get_container_tag n1 ∈ s.images := by simpa using hc
      have h1 : insertImage s.images (get_container_tag n1) = s.images := by
        simp [insertImage, hmem]
      rw [h1, insertImage, if_pos hc]
    · have hc' : s.images.contains (get_container_tag n1) = false := by
        simpa using hc
      have hmem : get_container_tag n1 ∉ s.images := by simpa using hc'
      have h1 : insertImage s.images (get_container_tag n1) =
          get_container_tag n1 :: s.images := by
        simp [insertImage, hmem]
      rw [h1, insertImage, if_pos (by simp)]

theorem shared_tag_derivation_witness :
    get_container_tag "A b" = get_container_tag "a B" ∧
    is_container_running initialState "A b" = is_container_running initialState "a B" ∧
    insertImage (insertImage [] (get_container_tag "A b")) (get_container_tag "A b") =
      insertImage [] (get_container_tag "A b") := by
  have h : get_container_tag "A b" = get_container_tag "a B" := by decide
  have hthm := shared_tag_derivation initialState "A b" "a B" ⟨true, true⟩
    ⟨true, 3000, true⟩ h
  exact ⟨h, hthm.2.1, by
    have := hthm.2.2.2.2
    simpa [initialState] using this⟩

/-- C7: registering a name already in use fails with the conflict
response and leaves the registry unchanged; registering a free name (with
a fresh uuid) succeeds and inserts exactly one record, so registering the
same name twice leaves exactly one record with that name. -/
theorem registry_add (s : HostState) (name : String) (id time : Nat) :
    (add_new_function_app s name id time).registry =
      s.registry ++ [⟨name, id, .Registered, time, 0⟩] := rfl

theorem register_name_unique (s : HostState) (name : String) (id1 id2 t1 t2 : Nat) :
    (is_name_in_use s name = true →
      create_function_app_route s name id1 t1 = (⟨400, "Name is already in use"⟩, s)) ∧
    (is_name_in_use s name = false →
      (s.registry.any fun r => r.id == id1) = false →
      (create_function_app_route s name id1 t1).1.code = 200 ∧
      countName (create_function_app_route s name id1 t1).2 name = 1 ∧
      (create_function_app_route (create_function_app_route s name id1 t1).2
          name id2 t2).1 = ⟨400, "Name is already in use"⟩ ∧
      (create_function_app_route (create_function_app_route s name id1 t1).2
          name id2 t2).2 = (create_function_app_route s name id1 t1).2) := by
  constructor
  · intro h
    simp [create_function_app_route, h]
  · intro h hid
    have hstate : (create_function_app_route s name id1 t1).2 =
        add_new_function_app s name id1 t1 := by
      simp [create_function_app_route, h, hid]
    have hcount0 : (List.filter (fun r => r.name == name) s.registry).length = 0 := by
      rw [List.length_eq_zero, List.filter_eq_nil_iff]
      intro r hr
      unfold is_name_in_use at h
      rw [List.any_eq_false] at h
      exact h r hr
    have hinuse : is_name_in_use (add_new_function_app s name id1 t1) name = true := by
      unfold is_name_in_use
      rw [registry_add, List.any_append]
      simp
    refine ⟨by simp [create_function_app_route, h, hid], ?_, ?_, ?_⟩
    · rw [hstate]
      unfold countName
      rw [registry_add, List.filter_append]
      simp [hcount0]
    · rw [hstate]
      simp [create_function_app_route, hinuse]
    · rw [hstate]
      simp [create_function_app_route, hinuse]

theorem register_name_unique_witness :
    (create_function_app_route initialState "demo" 1 5).1.code = 200 ∧
    countName (create_function_app_route initialState "demo" 1 5).2 "demo" = 1 ∧
    (create_function_app_route (create_function_app_route initialState "demo" 1 5).2
        "demo" 2 6).1 = ⟨400, "Name is already in use"⟩ ∧
    (create_function_app_route (create_function_app_route initialState "demo" 1 5).2
        "demo" 2 6).2 = (create_function_app_route initialState "demo" 1 5).2 :=
  (register_name_unique initialState "demo" 1 2 5 6).2 (by decide) (by decide)

theorem builder_running (s : HostState) (id : Nat) (r : FunctionAppRec)
    (h : findApp s id = some r) (hc : is_container_running s r.name = true) :
    FunctionAppBuilder.get_function_app_status s id = .ok .Running := by
  unfold FunctionAppBuilder.get_function_app_status get_function_app_name
  rw [h]
  simp [hc]

theorem builder_ready (s : HostState) (id : Nat) (r : FunctionAppRec)
    (h : findApp s id = some r) (hc : is_container_running s r.name = false) :
    FunctionAppBuilder.get_function_app_status s id = .ok .Ready := by
  unfold FunctionAppBuilder.get_function_app_status get_function_app_name
  rw [h]
  simp [hc]

theorem builder_missing (s : HostState) (id : Nat) (h : findApp s id = none) :
    FunctionAppBuilder.get_function_app_status s id =
      .error ("Cannot get function app name from ID: " ++ "Query returned no rows" ++
        ". Does this function app exist?") := by
  unfold FunctionAppBuilder.get_function_app_status get_function_app_name
  rw [h]

theorem name_after_set_status (s : HostState) (id : Nat) (r : FunctionAppRec)
    (h : findApp s id = some r) (st : FunctionAppStatus) :
    get_function_app_name (set_function_app_status s id st) id = .ok r.name := by
  unfold get_function_app_name
  rw [findApp_set_status, h]
  simp [id_of_findApp s id r h]

theorem findApp_containers (s : HostState) (x : List String) (id : Nat) :
    findApp { s with containers := x } id = findApp s id := rfl

theorem containers_set_status (s : HostState) (id : Nat) (st : FunctionAppStatus) :
    (set_function_app_status s id st).containers = s.containers := rfl

theorem is_container_running_set_status (s : HostState) (id : Nat)
    (st : FunctionAppStatus) (name : String) :
    is_container_running (set_function_app_status s id st) name =
      is_container_running s name := rfl

theorem start_route_states (s : HostState) (id : Nat) (r : FunctionAppRec)
    (h : findApp s id = some r) (renv : DockerRunEnv) :
    (is_container_running s r.name = true →
      start_function_app_route s ⟨some id, true, renv, true⟩ =
        (⟨200, "Function app is already running"⟩,
         set_function_app_status s id .Running)) ∧
    (is_container_running s r.name = false → renv.portPickOk = true →
      renv.runOk = true →
      start_function_app_route s ⟨some id, true, renv, true⟩ =
        (⟨200, "Function app is already running"⟩,
         set_function_app_running
           { set_function_app_status s id .Ready with
             containers := get_container_tag r.name :: s.containers } id renv.port)) ∧
    (is_container_running s r.name = false → renv.portPickOk = false →
      start_function_app_route s ⟨some id, true, renv, true⟩ =
        (⟨500, "Error starting function app: " ++ "Error getting next free port"⟩,
         set_function_app_status s id .Ready)) ∧
    (is_container_running s r.name = false → renv.portPickOk = true →
      renv.runOk = false →
      start_function_app_route s ⟨some id, true, renv, true⟩ =
        (⟨500, "Error starting function app: " ++ "Error starting container"⟩,
         set_function_app_status s id .Ready)) := by
  refine ⟨?_, ?_, ?_, ?_⟩
  · intro hc
    have hb := builder_running s id r h hc
    simp [start_function_app_route, hb]
  · intro hc hpp hro
    have hb := builder_ready s id r h hc
    have hname := name_after_set_status s id r h .Ready
    simp [start_function_app_route, hb, hname, docker_start_function_app, hpp, hro,
      containers_set_status]
  · intro hc hpp
    have hb := builder_ready s id r h hc
    have hname := name_after_set_status s id r h .Ready
    simp [start_function_app_route, hb, hname, docker_start_function_app, hpp]
  · intro hc hpp hro
    have hb := builder_ready s id r h hc
    have hname := name_after_set_status s id r h .Ready
    simp [start_function_app_route, hb, hname, docker_start_function_app, hpp, hro]

/-- C8: the claim says a start request rejected because the app is not
startable (unknown id included) gets HTTP 400.  On a well-formed id with
no record, the source's handler returns 500 (InternalServerError), not
400. -/
theorem start_unknown_id_returns_500 :
    (start_function_app_route ⟨[], [], []⟩
        ⟨some 1, true, ⟨true, 3000, true⟩, true⟩).1.code = 500 := by decide

/-- C8 (amended): only a malformed id string yields 400 on the start
endpoint; a well-formed id with no record — and the written (though
unreachable) not-startable arms — yield 500, with 500 also used for
internal pipeline failures. -/
theorem start_rejection_codes (s : HostState) (env : StartEnv) :
    (env.parsedId = none →
      start_function_app_route s env = (⟨400, "Error parsing ID"⟩, s)) ∧
    (∀ id, env.parsedId = some id → findApp s id = none →
      (start_function_app_route s env).1.code = 500 ∧
      (start_function_app_route s env).2 = s) := by
  constructor
  · intro hp
    simp [start_function_app_route, hp]
  · intro id hp hf
    have hb := builder_missing s id hf
    simp [start_function_app_route, hp, hb]

theorem start_rejection_codes_witness :
    (start_function_app_route initialState ⟨none, true, ⟨true, 3000, true⟩, true⟩ =
      (⟨400, "Error parsing ID"⟩, initialState)) ∧
    (start_function_app_route initialState
        ⟨some 1, true, ⟨true, 3000, true⟩, true⟩).1.code = 500 :=
  ⟨(start_rejection_codes initialState ⟨none, true, ⟨true, 3000, true⟩, true⟩).1 rfl,
   ((start_rejection_codes initialState
      ⟨some 1, true, ⟨true, 3000, true⟩, true⟩).2 1 rfl rfl).1⟩

/-- C1: the claim says start() from a stored Building (or Registered, or
Error) status fails with a state-conflict error and leaves the stored
status unchanged.  In the source the handler first re-derives the status
from the docker probe — a stored Building app whose container is not
live derives Ready — so this request succeeds with 200 and rewrites the
stored status to Running. -/
theorem start_on_stored_building_succeeds :
    (start_function_app_route ⟨[⟨"demo", 1, .Building, 7, 0⟩], [], []⟩
        ⟨some 1, true, ⟨true, 3000, true⟩, true⟩).1.code = 200 ∧
    (start_function_app_route ⟨[⟨"demo", 1, .Building, 7, 0⟩], [], []⟩
        ⟨some 1, true, ⟨true, 3000, true⟩, true⟩).2.registry =
      [⟨"demo", 1, .Running, 7, 3000⟩] := by decide

/-- C1 (amended): start() acts on the reconciled status, which for an
existing record is only ever Ready or Running: from reconciled Ready it
transitions the app to Running (storing the allocated port), from
reconciled Running it is an idempotent no-op success; it fails only when
the id has no record (500, state unchanged).  A stored Registered,
Building or Error status does not cause a state-conflict rejection — it
is overwritten by the reconciled status and the start proceeds. -/
theorem start_reconciled_policy (s : HostState) (id : Nat) (renv : DockerRunEnv) :
    (findApp s id = none →
      (start_function_app_route s ⟨some id, true, renv, true⟩).1.code = 500 ∧
      (start_function_app_route s ⟨some id, true, renv, true⟩).2 = s) ∧
    (∀ r, findApp s id = some r → is_container_running s r.name = true →
      (start_function_app_route s ⟨some id, true, renv, true⟩).1.code = 200 ∧
      (start_function_app_route s ⟨some id, true, renv, true⟩).2 =
        set_function_app_status s id .Running) ∧
    (∀ r, findApp s id = some r → is_container_running s r.name = false →
      renv.portPickOk = true → renv.runOk = true →
      (start_function_app_route s ⟨some id, true, renv, true⟩).1.code = 200 ∧
      appStatus (start_function_app_route s ⟨some id, true, renv, true⟩).2 id =
        some .Running ∧
      appPort (start_function_app_route s ⟨some id, true, renv, true⟩).2 id =
        some renv.port) := by
  refine ⟨?_, ?_, ?_⟩
  · intro hf
    have hb := builder_missing s id hf
    simp [start_function_app_route, hb]
  · intro r hf hc
    have hr := (start_route_states s id r hf renv).1 hc
    rw [hr]
    exact ⟨rfl, rfl⟩
  · intro r hf hc hpp hro
    have hr := (start_route_states s id r hf renv).2.1 hc hpp hro
    rw [hr]
    have hf1 : findApp
        { set_function_app_status s id .Ready with
          containers := get_container_tag r.name :: s.containers } id =
        some { r with status := .Ready } := by
      rw [findApp_containers, findApp_set_status, hf]
      simp [id_of_findApp s id r hf]
    have happ := appStatus_set_running _ id { r with status := .Ready } hf1 renv.port
    exact ⟨rfl, happ.1, happ.2⟩

theorem start_reconciled_policy_witness :
    (start_function_app_route ⟨[⟨"demo", 1, .Ready, 7, 0⟩], [], []⟩
        ⟨some 1, true, ⟨true, 3000, true⟩, true⟩).1.code = 200 ∧
    appStatus (start_function_app_route ⟨[⟨"demo", 1, .Ready, 7, 0⟩], [], []⟩
        ⟨some 1, true, ⟨true, 3000, true⟩, true⟩).2 1 = some .Running ∧
    appPort (start_function_app_route ⟨[⟨"demo", 1, .Ready, 7, 0⟩], [], []⟩
        ⟨some 1, true, ⟨true, 3000, true⟩, true⟩).2 1 = some 3000 :=
  (start_reconciled_policy ⟨[⟨"demo", 1, .Ready, 7, 0⟩], [], []⟩ 1
      ⟨true, 3000, true⟩).2.2 ⟨"demo", 1, .Ready, 7, 0⟩ rfl rfl rfl rfl

theorem status_route_found (s : HostState) (id : Nat) (r : FunctionAppRec)
    (h : findApp s id = some r) :
    get_function_app_status_route s ⟨some id, true⟩ =
      (⟨200, statusText (if is_container_running s r.name then .Running else .Ready)⟩,
       set_function_app_status s id
         (if is_container_running s r.name then .Running else .Ready)) := by
  cases hc : is_container_running s r.name
  · have hb := builder_ready s id r h hc
    simp [get_function_app_status_route, hb]
  · have hb := builder_running s id r h hc
    simp [get_function_app_status_route, hb]

/-- C4: for an existing record, the status endpoint is a reconciliation
read — it answers Running exactly when the docker probe sees the app's
container and Ready otherwise, writes that derived status back to the
registry before answering, and is idempotent: when the container is not
live, two consecutive status calls both answer Ready (never a stale
Running). -/
theorem status_reconciliation (s : HostState) (id : Nat) (r : FunctionAppRec)
    (h : findApp s id = some r) :
    (get_function_app_status_route s ⟨some id, true⟩).1 =
      ⟨200, statusText (if is_container_running s r.name then .Running else .Ready)⟩ ∧
    appStatus (get_function_app_status_route s ⟨some id, true⟩).2 id =
      some (if is_container_running s r.name then .Running else .Ready) ∧
    (is_container_running s r.name = false →
      (get_function_app_status_route s ⟨some id, true⟩).1.body = statusText .Ready ∧
      (get_function_app_status_route
          (get_function_app_status_route s ⟨some id, true⟩).2 ⟨some id, true⟩).1.body =
        statusText .Ready) := by
  have hmain := status_route_found s id r h
  refine ⟨by rw [hmain], ?_, ?_⟩
  · rw [hmain]
    exact appStatus_set_status s id r h _
  · intro hc
    rw [hmain, hc]
    simp only [Bool.false_eq_true, if_false]
    refine ⟨by trivial, ?_⟩
    have hf1 : findApp (set_function_app_status s id .Ready) id =
        some { r with status := .Ready } := by
      rw [findApp_set_status, h]
      simp [id_of_findApp s id r h]
    have hc1 : is_container_running (set_function_app_status s id .Ready)
        ({ r with status := .Ready } : FunctionAppRec).name = false := by
      rw [is_container_running_set_status]
      exact hc
    have h2 := status_route_found (set_function_app_status s id .Ready) id
      { r with status := .Ready } hf1
    rw [hc1] at h2
    simp only [Bool.false_eq_true, if_false] at h2
    rw [h2]

theorem status_reconciliation_witness :
    (get_function_app_status_route ⟨[⟨"demo", 1, .Running, 7, 3000⟩], [], []⟩
        ⟨some 1, true⟩).1.body = statusText .Ready ∧
    (get_function_app_status_route
        (get_function_app_status_route ⟨[⟨"demo", 1, .Running, 7, 3000⟩], [], []⟩
          ⟨some 1, true⟩).2 ⟨some 1, true⟩).1.body = statusText .Ready :=
  (status_reconciliation ⟨[⟨"demo", 1, .Running, 7, 3000⟩], [], []⟩ 1
      ⟨"demo", 1, .Running, 7, 3000⟩ rfl).2.2 rfl

/-- C10: for an id with a record, the derivation shared by the status and
start endpoints yields only Ready or Running — Running exactly when the
container probe sees the app's tag — the handlers persist that value, so
a stored Registered, Building or Error status is overwritten by either
request and is never returned by the status endpoint for an existing
id. -/
theorem derived_status_ready_or_running (s : HostState) (id : Nat)
    (r : FunctionAppRec) (h : findApp s id = some r) (renv : DockerRunEnv) :
    FunctionAppBuilder.get_function_app_status s id =
      .ok (if is_container_running s r.name then .Running else .Ready) ∧
    (∀ st, FunctionAppBuilder.get_function_app_status s id = .ok st →
      st = .Ready ∨ st = .Running) ∧
    appStatus (get_function_app_status_route s ⟨some id, true⟩).2 id =
      some (if is_container_running s r.name then .Running else .Ready) ∧
    ((get_function_app_status_route s ⟨some id, true⟩).1.body = statusText .Ready ∨
     (get_function_app_status_route s ⟨some id, true⟩).1.body = statusText .Running) ∧
    (appStatus (start_function_app_route s ⟨some id, true, renv, true⟩).2 id =
        some .Ready ∨
     appStatus (start_function_app_route s ⟨some id, true, renv, true⟩).2 id =
        some .Running) := by
  have hroute := status_route_found s id r h
  have hready : appStatus (set_function_app_status s id .Ready) id = some .Ready :=
    appStatus_set_status s id r h .Ready
  refine ⟨?_, ?_, ?_, ?_, ?_⟩
  · cases hc : is_container_running s r.name
    · simpa [hc] using builder_ready s id r h hc
    · simpa [hc] using builder_running s id r h hc
  · intro st hst
    cases hc : is_container_running s r.name
    · rw [builder_ready s id r h hc] at hst
      exact Or.inl (Except.ok.inj hst).symm
    · rw [builder_running s id r h hc] at hst
      exact Or.inr (Except.ok.inj hst).symm
  · rw [hroute]
    exact appStatus_set_status s id r h _
  · rw [hroute]
    cases hc : is_container_running s r.name
    · left
      simp [hc]
    · right
      simp [hc]
  · cases hc : is_container_running s r.name
    · cases hpp : renv.portPickOk
      · left
        rw [(start_route_states s id r h renv).2.2.1 hc hpp]
        exact hready
      · cases hro : renv.runOk
        · left
          rw [(start_route_states s id r h renv).2.2.2 hc hpp hro]
          exact hready
        · right
          rw [(start_route_states s id r h renv).2.1 hc hpp hro]
          have hf1 : findApp
              { set_function_app_status s id .Ready with
                containers := get_container_tag r.name :: s.containers } id =
              some { r with status := .Ready } := by
            rw [findApp_containers, findApp_set_status, h]
            simp [id_of_findApp s id r h]
          exact (appStatus_set_running _ id { r with status := .Ready } hf1 renv.port).1
    · right
      rw [((start_route_states s id r h renv).1 hc)]
      exact appStatus_set_status s id r h .Running

theorem derived_status_ready_or_running_witness :
    FunctionAppBuilder.get_function_app_status
        ⟨[⟨"demo", 1, .Error, 7, 0⟩], [], []⟩ 1 = .ok .Ready ∧
    appStatus (get_function_app_status_route ⟨[⟨"demo", 1, .Error, 7, 0⟩], [], []⟩
        ⟨some 1, true⟩).2 1 = some .Ready := by
  have hthm := derived_status_ready_or_running ⟨[⟨"demo", 1, .Error, 7, 0⟩], [], []⟩ 1
    ⟨"demo", 1, .Error, 7, 0⟩ rfl ⟨true, 3000, true⟩
  have hc : is_container_running (⟨[⟨"demo", 1, .Error, 7, 0⟩], [], []⟩ : HostState)
      "demo" = false := by decide
  refine ⟨?_, ?_⟩
  · have h1 := hthm.1
    rw [hc] at h1
    simpa using h1
  · have h3 := hthm.2.2.1
    rw [hc] at h3
    simpa using h3

theorem findApp_images (s : HostState) (x : List String) (id : Nat) :
    findApp { s with images := x } id = findApp s id := rfl

theorem unzip_ok_of_okb (u : UnzipEnv) (h : unzipOkb u = true) :
    (unzip_file_in_temp_dir u).1 = .ok () := by
  obtain ⟨c, w, sp, ex, rm, rd, rn⟩ := u
  simp only [unzipOkb, Bool.and_eq_true, beq_iff_eq] at h
  simp [unzip_file_in_temp_dir, h.1, h.2]

theorem unzip_okb_of_ok (u : UnzipEnv) (h : (unzip_file_in_temp_dir u).1 = .ok ()) :
    unzipOkb u = true := by
  obtain ⟨c, w, sp, ex, rm, rd, rn⟩ := u
  cases c <;> cases w <;> cases sp <;> cases rm <;> cases rd <;> cases rn <;>
    cases hl : ex.length == 1 <;>
    simp_all [unzip_file_in_temp_dir, unzipOkb]

/-- C3: for an upload on a registered id, a fully successful pipeline
leaves the stored status Ready with a 200 response; if any pipeline step
fails, the stored status is force-set to Error through the best-effort
compensating write and the response surfaces the originating step's
error — pinned per step: a failed Building or Ready status write answers
500, a bad base64 body 400, a temp-dir failure 400, a staging failure
500 carrying the staging error text, a build failure 400 carrying the
build error text; the compensating write's own outcome does not change
the response, so its failure is swallowed and the caller still sees the
original error. -/
theorem upload_pipeline_status (s : HostState) (id : Nat) (r : FunctionAppRec)
    (h : findApp s id = some r) (bW dO tO : Bool) (uz : UnzipEnv)
    (dW bO rW : Bool) :
    (pipelineOkb ⟨some id, bW, true, dO, tO, uz, ⟨dW, bO⟩, rW⟩ = true →
      (post_function_app_code_route s
          ⟨some id, bW, true, dO, tO, uz, ⟨dW, bO⟩, rW⟩).1 = ⟨200, ""⟩ ∧
      appStatus (post_function_app_code_route s
          ⟨some id, bW, true, dO, tO, uz, ⟨dW, bO⟩, rW⟩).2 id = some .Ready) ∧
    (pipelineOkb ⟨some id, bW, true, dO, tO, uz, ⟨dW, bO⟩, rW⟩ = false →
      (post_function_app_code_route s
          ⟨some id, bW, true, dO, tO, uz, ⟨dW, bO⟩, rW⟩).1.code ≠ 200 ∧
      appStatus (post_function_app_code_route s
          ⟨some id, bW, true, dO, tO, uz, ⟨dW, bO⟩, rW⟩).2 id = some .Error ∧
      (post_function_app_code_route s
          ⟨some id, bW, true, dO, tO, uz, ⟨dW, bO⟩, rW⟩).1 =
        (post_function_app_code_route s
          ⟨some id, bW, false, dO, tO, uz, ⟨dW, bO⟩, rW⟩).1) ∧
    (bW = false →
      (post_function_app_code_route s
          ⟨some id, bW, true, dO, tO, uz, ⟨dW, bO⟩, rW⟩).1 =
        ⟨500, "Error updating status"⟩) ∧
    (bW = true → dO = false →
      (post_function_app_code_route s
          ⟨some id, bW, true, dO, tO, uz, ⟨dW, bO⟩, rW⟩).1 =
        ⟨400, "Invalid base64"⟩) ∧
    (bW = true → dO = true → tO = false →
      (post_function_app_code_route s
          ⟨some id, bW, true, dO, tO, uz, ⟨dW, bO⟩, rW⟩).1 =
        ⟨400, "Error creating temporary directory"⟩) ∧
    (∀ e, bW = true → dO = true → tO = true →
      (unzip_file_in_temp_dir uz).1 = .error e →
      (post_function_app_code_route s
          ⟨some id, bW, true, dO, tO, uz, ⟨dW, bO⟩, rW⟩).1 =
        ⟨500, "Could not write zip file: " ++ e⟩) ∧
    (∀ e, bW = true → dO = true → tO = true →
      (unzip_file_in_temp_dir uz).1 = .ok () →
      build_function_app_container (set_function_app_status s id .Building)
        r.name ⟨dW, bO⟩ = .error e →
      (post_function_app_code_route s
          ⟨some id, bW, true, dO, tO, uz, ⟨dW, bO⟩, rW⟩).1 =
        ⟨400, "Error: " ++ e⟩) ∧
    (bW = true → dO = true → tO = true →
      (unzip_file_in_temp_dir uz).1 = .ok () → dW = true → bO = true →
      rW = false →
      (post_function_app_code_route s
          ⟨some id, bW, true, dO, tO, uz, ⟨dW, bO⟩, rW⟩).1 =
        ⟨500, "Error updating status"⟩) := by
  have hname : get_function_app_name s id = .ok r.name := by
    unfold get_function_app_name
    rw [h]
  have hf1 : findApp (set_function_app_status s id .Building) id =
      some { r with status := .Building } := by
    rw [findApp_set_status, h]
    simp [id_of_findApp s id r h]
  have herr0 : appStatus (compensateError s id true) id = some .Error := by
    unfold compensateError
    simp only [if_true]
    exact appStatus_set_status s id r h .Error
  have herr1 : appStatus
      (compensateError (set_function_app_status s id .Building) id true) id =
      some .Error := by
    unfold compensateError
    simp only [if_true]
    exact appStatus_set_status _ id { r with status := .Building } hf1 .Error
  refine ⟨?_, ?_, ?_, ?_, ?_, ?_, ?_, ?_⟩
  · intro hok
    simp only [pipelineOkb, unzipOkb, Bool.and_eq_true, beq_iff_eq] at hok
    obtain ⟨⟨⟨⟨⟨⟨hbW, hdO⟩, htO⟩, huzb⟩, hdW⟩, hbO⟩, hrW⟩ := hok
    have hu : (unzip_file_in_temp_dir uz).1 = .ok () := by
      apply unzip_ok_of_okb
      simp only [unzipOkb, Bool.and_eq_true, beq_iff_eq]
      exact huzb
    constructor
    · simp [post_function_app_code_route, hname, hbW, hdO, htO, hu,
        build_function_app_container, hdW, hbO, hrW]
    · simp only [post_function_app_code_route, hname, hbW, hdO, htO, hu,
        build_function_app_container, hdW, hbO, hrW, Bool.not_true,
        Bool.false_eq_true, if_false]
      exact appStatus_set_status _ id { r with status := .Building }
        (by rw [findApp_images]; exact hf1) .Ready
  · intro hbad
    cases hbW : bW
    · refine ⟨?_, ?_, ?_⟩ <;>
        simp [post_function_app_code_route, hname, herr0]
    · cases hdO : dO
      · refine ⟨?_, ?_, ?_⟩ <;>
          simp [post_function_app_code_route, hname, herr1]
      · cases htO : tO
        · refine ⟨?_, ?_, ?_⟩ <;>
            simp [post_function_app_code_route, hname, herr1]
        · cases hu : (unzip_file_in_temp_dir uz).1 with
          | error e =>
            refine ⟨?_, ?_, ?_⟩ <;>
              simp [post_function_app_code_route, hname, hu, herr1]
          | ok u =>
            have huzb := unzip_okb_of_ok uz (by rw [hu])
            cases hdW : dW
            · refine ⟨?_, ?_, ?_⟩ <;>
                simp [post_function_app_code_route, hname, hu,
                  build_function_app_container, herr1]
            · cases hbO : bO
              · refine ⟨?_, ?_, ?_⟩ <;>
                  simp [post_function_app_code_route, hname, hu,
                    build_function_app_container, herr1]
              · cases hrW : rW
                · have herr2 : appStatus
                      (compensateError
                        { set_function_app_status s id .Building with
                          images := insertImage
                            (set_function_app_status s id .Building).images
                            (get_container_tag r.name) } id true) id =
                      some .Error := by
                    unfold compensateError
                    simp only [if_true]
                    exact appStatus_set_status _ id { r with status := .Building }
                      (by rw [findApp_images]; exact hf1) .Error
                  refine ⟨?_, ?_, ?_⟩ <;>
                    simp [post_function_app_code_route, hname, hu,
                      build_function_app_container, herr2]
                · exfalso
                  rw [hbW, hdO, htO, hdW, hbO, hrW] at hbad
                  simp only [pipelineOkb, Bool.and_eq_true] at hbad
                  simp [huzb] at hbad
  · intro h3
    simp [post_function_app_code_route, hname, h3]
  · intro h3 h4
    simp [post_function_app_code_route, hname, h3, h4]
  · intro h3 h4 h5
    simp [post_function_app_code_route, hname, h3, h4, h5]
  · intro e h3 h4 h5 he
    simp [post_function_app_code_route, hname, h3, h4, h5, he]
  · intro e h3 h4 h5 hu hb
    simp [post_function_app_code_route, hname, h3, h4, h5, hu, hb]
  · intro h3 h4 h5 hu h6 h7 h8
    simp [post_function_app_code_route, hname, h3, h4, h5, hu,
      build_function_app_container, h6, h7, h8]

theorem upload_pipeline_status_witness :
    ((post_function_app_code_route ⟨[⟨"demo", 1, .Registered, 5, 0⟩], [], []⟩
        ⟨some 1, true, true, true, true, okUnzip, ⟨true, true⟩, true⟩).1 = ⟨200, ""⟩ ∧
     appStatus (post_function_app_code_route ⟨[⟨"demo", 1, .Registered, 5, 0⟩], [], []⟩
        ⟨some 1, true, true, true, true, okUnzip, ⟨true, true⟩, true⟩).2 1 =
      some .Ready) ∧
    (post_function_app_code_route ⟨[⟨"demo", 1, .Registered, 5, 0⟩], [], []⟩
        ⟨some 1, true, true, false, true, okUnzip, ⟨true, true⟩, true⟩).1 =
      ⟨400, "Invalid base64"⟩ :=
  ⟨(upload_pipeline_status ⟨[⟨"demo", 1, .Registered, 5, 0⟩], [], []⟩ 1
      ⟨"demo", 1, .Registered, 5, 0⟩ rfl true true true okUnzip true true true).1
    (by decide),
   (upload_pipeline_status ⟨[⟨"demo", 1, .Registered, 5, 0⟩], [], []⟩ 1
      ⟨"demo", 1, .Registered, 5, 0⟩ rfl true false true okUnzip
      true true true).2.2.2.1 rfl rfl⟩

theorem registry_set_status (s : HostState) (id : Nat) (st : FunctionAppStatus) :
    (set_function_app_status s id st).registry =
      s.registry.map fun r => if r.id = id then { r with status := st } else r := rfl

theorem registry_set_running (s : HostState) (id : Nat) (p : Nat) :
    (set_function_app_running s id p).registry =
      s.registry.map fun r =>
        if r.id = id then { r with status := .Running, port := p } else r := rfl

theorem containers_set_running (s : HostState) (id : Nat) (p : Nat) :
    (set_function_app_running s id p).containers = s.containers := rfl

theorem containers_add (s : HostState) (name : String) (id time : Nat) :
    (add_new_function_app s name id time).containers = s.containers := rfl

theorem id_if_status (r : FunctionAppRec) (id : Nat) (st : FunctionAppStatus) :
    (if r.id = id then { r with status := st } else r).id = r.id := by
  by_cases hc : r.id = id <;> simp [hc]

theorem tag_if_status (r : FunctionAppRec) (id : Nat) (st : FunctionAppStatus) :
    TagOf (if r.id = id then { r with status := st } else r) = TagOf r := by
  by_cases hc : r.id = id <;> simp [hc, TagOf]

theorem id_if_running (r : FunctionAppRec) (id : Nat) (p : Nat) :
    (if r.id = id then { r with status := .Running, port := p } else r).id = r.id := by
  by_cases hc : r.id = id <;> simp [hc]

theorem tag_if_running (r : FunctionAppRec) (id : Nat) (p : Nat) :
    TagOf (if r.id = id then { r with status := .Running, port := p } else r) =
      TagOf r := by
  by_cases hc : r.id = id <;> simp [hc, TagOf]

theorem PortInv_set_status (s : HostState) (id : Nat) (st : FunctionAppStatus)
    (h : PortInv s)
    (hport : st = .Running → ∀ r ∈ s.registry, r.id = id → r.port ≠ 0) :
    PortInv (set_function_app_status s id st) := by
  obtain ⟨h1, h2, h3, h4, h5⟩ := h
  unfold PortInv
  rw [registry_set_status, containers_set_status]
  refine ⟨?_, ?_, ?_, ?_, ?_⟩
  · intro r' hr'
    rw [List.mem_map] at hr'
    obtain ⟨r, hr, rfl⟩ := hr'
    by_cases hc : r.id = id
    · rw [if_pos hc]
      intro hst
      exact hport hst r hr hc
    · rw [if_neg hc]
      exact h1 r hr
  · intro r' hr'
    rw [List.mem_map] at hr'
    obtain ⟨r, hr, rfl⟩ := hr'
    by_cases hc : r.id = id
    · rw [if_pos hc]
      exact h2 r hr
    · rw [if_neg hc]
      exact h2 r hr
  · intro t ht
    obtain ⟨r, hr, htag⟩ := h3 t ht
    refine ⟨if r.id = id then { r with status := st } else r,
      List.mem_map_of_mem _ hr, ?_⟩
    rw [tag_if_status]
    exact htag
  · rw [List.pairwise_map]
    refine h4.imp ?_
    intro a b hab
    rw [id_if_status, id_if_status]
    exact hab
  · rw [List.pairwise_map]
    refine h5.imp ?_
    intro a b hab
    rw [tag_if_status, tag_if_status]
    exact hab

theorem PortInv_compensate (s : HostState) (id : Nat) (ok : Bool)
    (h : PortInv s) : PortInv (compensateError s id ok) := by
  unfold compensateError
  cases ok
  · simpa using h
  · simpa using PortInv_set_status s id .Error h (fun hst => nomatch hst)

theorem PortInv_register (s : HostState) (name : String) (id time : Nat)
    (h : PortInv s)
    (htag : ∀ r ∈ s.registry,
      ¬ (TagOf r).data <:+: (get_container_tag name).data ∧
      ¬ (get_container_tag name).data <:+: (TagOf r).data)
    (hid : ∀ r ∈ s.registry, r.id ≠ id) :
    PortInv (add_new_function_app s name id time) := by
  obtain ⟨h1, h2, h3, h4, h5⟩ := h
  unfold PortInv
  rw [registry_add, containers_add]
  refine ⟨?_, ?_, ?_, ?_, ?_⟩
  · intro r hr
    rw [List.mem_append] at hr
    rcases hr with hr | hr
    · exact h1 r hr
    · rw [List.mem_singleton] at hr
      subst hr
      intro hst
      exact nomatch hst
  · intro r hr
    rw [List.mem_append] at hr
    rcases hr with hr | hr
    · exact h2 r hr
    · rw [List.mem_singleton] at hr
      subst hr
      intro htg
      obtain ⟨line, hline, hinf⟩ := htg
      obtain ⟨r', hr', htg'⟩ := h3 line hline
      rw [← htg'] at hinf
      exact absurd hinf (htag r' hr').2
  · intro t ht
    obtain ⟨r, hr, htg⟩ := h3 t ht
    exact ⟨r, List.mem_append_left _ hr, htg⟩
  · rw [List.pairwise_append]
    refine ⟨h4, List.pairwise_singleton _ _, ?_⟩
    intro a ha b hb
    rw [List.mem_singleton] at hb
    subst hb
    exact hid a ha
  · rw [List.pairwise_append]
    refine ⟨h5, List.pairwise_singleton _ _, ?_⟩
    intro a ha b hb
    rw [List.mem_singleton] at hb
    subst hb
    exact ⟨(htag a ha).1, (htag a ha).2⟩

theorem PortInv_start_success (s : HostState) (id : Nat) (r0 : FunctionAppRec)
    (h : PortInv s) (hfind : findApp s id = some r0) (p : Nat) (hp : p ≠ 0) :
    PortInv (set_function_app_running
      { s with containers := TagOf r0 :: s.containers } id p) := by
  obtain ⟨h1, h2, h3, h4, h5⟩ := h
  have hr0mem := mem_of_findApp s id r0 hfind
  have hr0id := id_of_findApp s id r0 hfind
  have htagind : ∀ a ∈ s.registry, ∀ b ∈ s.registry, a ≠ b →
      ¬ (TagOf a).data <:+: (TagOf b).data :=
    fun a ha b hb hne => (h5.forall (fun _ _ hab => ⟨hab.2, hab.1⟩) ha hb hne).1
  unfold PortInv
  rw [registry_set_running, containers_set_running]
  refine ⟨?_, ?_, ?_, ?_, ?_⟩
  · intro r' hr'
    rw [List.mem_map] at hr'
    obtain ⟨r, hr, rfl⟩ := hr'
    by_cases hc : r.id = id
    · rw [if_pos hc]
      intro _
      exact hp
    · rw [if_neg hc]
      exact h1 r hr
  · intro r' hr'
    rw [List.mem_map] at hr'
    obtain ⟨r, hr, rfl⟩ := hr'
    by_cases hc : r.id = id
    · rw [if_pos hc]
      intro _
      exact hp
    · rw [if_neg hc]
      intro htg
      obtain ⟨line, hline, hinf⟩ := htg
      rcases List.mem_cons.mp hline with hline | hline
      · exfalso
        have hne : r ≠ r0 := fun he => hc (by rw [he]; exact hr0id)
        rw [hline] at hinf
        exact htagind r hr r0 hr0mem hne hinf
      · exact h2 r hr ⟨line, hline, hinf⟩
  · intro t ht
    rcases List.mem_cons.mp ht with ht | ht
    · refine ⟨if r0.id = id then { r0 with status := .Running, port := p } else r0,
        List.mem_map_of_mem _ hr0mem, ?_⟩
      rw [tag_if_running, ht]
    · obtain ⟨r, hr, htg⟩ := h3 t ht
      refine ⟨if r.id = id then { r with status := .Running, port := p } else r,
        List.mem_map_of_mem _ hr, ?_⟩
      rw [tag_if_running]
      exact htg
  · rw [List.pairwise_map]
    refine h4.imp ?_
    intro a b hab
    rw [id_if_running, id_if_running]
    exact hab
  · rw [List.pairwise_map]
    refine h5.imp ?_
    intro a b hab
    rw [tag_if_running, tag_if_running]
    exact hab

theorem port_ne_zero_of_probe (s : HostState) (id : Nat) (r : FunctionAppRec)
    (h : PortInv s) (hf : findApp s id = some r)
    (hc : is_container_running s r.name = true) :
    ∀ r' ∈ s.registry, r'.id = id → r'.port ≠ 0 := by
  intro r' hr' hid
  have hmem := mem_of_findApp s id r hf
  have hrid := id_of_findApp s id r hf
  by_cases he : r' = r
  · subst he
    apply h.2.1 r' hr'
    simpa [TagOf, is_container_running, str_contains, List.any_eq_true] using hc
  · exfalso
    have hforall := (h.2.2.2.1).forall
      (fun _ _ hab => Ne.symm hab) hr' hmem he
    exact hforall (hid.trans hrid.symm)

theorem PortInv_statusQ (s : HostState) (env : StatusEnv) (h : PortInv s) :
    PortInv (get_function_app_status_route s env).2 := by
  obtain ⟨pid, wOk⟩ := env
  cases pid with
  | none => simpa [get_function_app_status_route] using h
  | some id =>
    cases hf : findApp s id with
    | none =>
      have hb := builder_missing s id hf
      simpa [get_function_app_status_route, hb] using h
    | some r =>
      cases hc : is_container_running s r.name with
      | false =>
        have hb := builder_ready s id r hf hc
        cases wOk
        · simpa [get_function_app_status_route, hb] using h
        · simpa [get_function_app_status_route, hb] using
            PortInv_set_status s id .Ready h (fun hst => nomatch hst)
      | true =>
        have hb := builder_running s id r hf hc
        have hport := port_ne_zero_of_probe s id r h hf hc
        cases wOk
        · simpa [get_function_app_status_route, hb] using h
        · simpa [get_function_app_status_route, hb] using
            PortInv_set_status s id .Running h (fun _ => hport)

theorem PortInv_upload (s : HostState) (env : UploadEnv) (h : PortInv s) :
    PortInv (post_function_app_code_route s env).2 := by
  obtain ⟨pid, bW, eW, dO, tO, uz, benv, rW⟩ := env
  cases pid with
  | none => simpa [post_function_app_code_route] using h
  | some id =>
    cases hname : get_function_app_name s id with
    | error e => simpa [post_function_app_code_route, hname] using h
    | ok name =>
      have hB : PortInv (set_function_app_status s id .Building) :=
        PortInv_set_status s id .Building h (fun hst => nomatch hst)
      have hE0 : PortInv (compensateError s id eW) := PortInv_compensate s id eW h
      have hE1 : PortInv
          (compensateError (set_function_app_status s id .Building) id eW) :=
        PortInv_compensate _ id eW hB
      cases bW
      · simpa [post_function_app_code_route, hname] using hE0
      · cases dO
        · simpa [post_function_app_code_route, hname] using hE1
        · cases tO
          · simpa [post_function_app_code_route, hname] using hE1
          · cases hu : (unzip_file_in_temp_dir uz).1 with
            | error e =>
              simpa [post_function_app_code_route, hname, hu] using hE1
            | ok u =>
              obtain ⟨dW, bO⟩ := benv
              cases dW
              · simpa [post_function_app_code_route, hname, hu,
                  build_function_app_container] using hE1
              · cases bO
                · simpa [post_function_app_code_route, hname, hu,
                    build_function_app_container] using hE1
                · have hS2 : PortInv
                      { set_function_app_status s id .Building with
                        images := insertImage
                          (set_function_app_status s id .Building).images
                          (get_container_tag name) } := hB
                  have hE2 := PortInv_compensate _ id eW hS2
                  have hR := PortInv_set_status _ id .Ready hS2
                    (fun hst => nomatch hst)
                  cases rW
                  · simpa [post_function_app_code_route, hname, hu,
                      build_function_app_container] using hE2
                  · simpa [post_function_app_code_route, hname, hu,
                      build_function_app_container] using hR

theorem PortInv_start (s : HostState) (env : StartEnv) (h : PortInv s)
    (hp : env.run.port ≠ 0) (hw : env.runningWriteOk = true) :
    PortInv (start_function_app_route s env).2 := by
  obtain ⟨pid, sW, renv, rOk⟩ := env
  subst hw
  cases pid with
  | none => simpa [start_function_app_route] using h
  | some id =>
    cases hf : findApp s id with
    | none =>
      have hb := builder_missing s id hf
      simpa [start_function_app_route, hb] using h
    | some r =>
      have hname0 : get_function_app_name s id = .ok r.name := by
        unfold get_function_app_name
        rw [hf]
      cases hc : is_container_running s r.name with
      | true =>
        have hb := builder_running s id r hf hc
        have hport := port_ne_zero_of_probe s id r h hf hc
        cases sW
        · simpa [start_function_app_route, hb] using h
        · simpa [start_function_app_route, hb] using
            PortInv_set_status s id .Running h (fun _ => hport)
      | false =>
        have hb := builder_ready s id r hf hc
        obtain ⟨ppOk, port, runOk⟩ := renv
        have hp' : port ≠ 0 := hp
        cases sW
        · cases ppOk
          · simpa [start_function_app_route, hb, hname0,
              docker_start_function_app] using h
          · cases runOk
            · simpa [start_function_app_route, hb, hname0,
                docker_start_function_app] using h
            · have hfin := PortInv_start_success s id r h hf port hp'
              simpa [start_function_app_route, hb, hname0,
                docker_start_function_app, TagOf] using hfin
        · have h1 : PortInv (set_function_app_status s id .Ready) :=
            PortInv_set_status s id .Ready h (fun hst => nomatch hst)
          have hf1 : findApp (set_function_app_status s id .Ready) id =
              some { r with status := .Ready } := by
            rw [findApp_set_status, hf]
            simp [id_of_findApp s id r hf]
          have hname1 := name_after_set_status s id r hf .Ready
          cases ppOk
          · simpa [start_function_app_route, hb, hname1,
              docker_start_function_app] using h1
          · cases runOk
            · simpa [start_function_app_route, hb, hname1,
                docker_start_function_app] using h1
            · have hfin := PortInv_start_success (set_function_app_status s id .Ready)
                id { r with status := .Ready } h1 hf1 port hp'
              simpa [start_function_app_route, hb, hname1,
                docker_start_function_app, TagOf] using hfin

theorem PortInv_applyOp (s : HostState) (op : Op) (h : PortInv s)
    (hop : opOKb s op = true) : PortInv (applyOp s op) := by
  cases op with
  | register name id time =>
    have htag : ∀ r ∈ s.registry,
        ¬ (TagOf r).data <:+: (get_container_tag name).data ∧
        ¬ (get_container_tag name).data <:+: (TagOf r).data := by
      have hall : ∀ x ∈ s.registry,
          ¬ (TagOf x).data <:+: (get_container_tag name).data ∧
          ¬ (get_container_tag name).data <:+: (TagOf x).data := by
        simpa [opOKb, List.all_eq_true, str_contains] using hop
      exact hall
    show PortInv (create_function_app_route s name id time).2
    cases hn : is_name_in_use s name
    · cases ha : s.registry.any (fun r => r.id == id)
      · have hid : ∀ r ∈ s.registry, r.id ≠ id := by
          intro r hr
          have := List.any_eq_false.mp ha r hr
          simpa using this
        simpa [create_function_app_route, hn, ha] using
          PortInv_register s name id time h htag hid
      · simpa [create_function_app_route, hn, ha] using h
    · simpa [create_function_app_route, hn] using h
  | upload env => exact PortInv_upload s env h
  | start env =>
    have hop' : (env.run.port != 0) = true ∧ env.runningWriteOk = true := by
      simpa [opOKb, Bool.and_eq_true] using hop
    exact PortInv_start s env h (by simpa using hop'.1) hop'.2
  | statusQ env => exact PortInv_statusQ s env h

theorem PortInv_initial : PortInv initialState := by
  refine ⟨?_, ?_, ?_, ?_, ?_⟩ <;> simp [initialState]

theorem PortInv_runOps (ops : List Op) : ∀ s : HostState, PortInv s →
    opsWFb s ops = true → PortInv (runOps s ops) := by
  induction ops with
  | nil =>
    intro s h _
    exact h
  | cons op rest ih =>
    intro s h hwf
    have hwf' : opOKb s op = true ∧ opsWFb (applyOp s op) rest = true := by
      simpa [opsWFb, Bool.and_eq_true] using hwf
    exact ih (applyOp s op) (PortInv_applyOp s op h hwf'.1) hwf'.2

/-- C2: the claim states "port is non-zero iff status is Running" as an
invariant over all register / upload / start / status sequences.  It
fails: `set_function_app_status` preserves the port column, so after a
successful start a later upload moves the status off Running (here to
Error via a failed base64 decode) while the port keeps its old non-zero
value.  The trace uses only well-behaved environments (non-zero allocated
port, all storage writes succeeding). -/
theorem stale_port_after_error :
    opsWFb initialState demoOps = true ∧
    (runOps initialState demoOps).registry = [⟨"demo", 1, .Error, 5, 3000⟩] ∧
    ¬ (∀ r ∈ (runOps initialState demoOps).registry,
        (r.port ≠ 0 ↔ r.status = .Running)) := by decide

/-- The substring probe aliases tags: register "a" and "a a" — distinct
tags, one occurring inside the other — then upload and start "a a" and
query the status of "a".  The never-started app "a" is persisted as
Running with port 0, violating even the one surviving direction of the
port/status equivalence.  This is why the trace discipline of the
amended invariant requires pairwise non-aliasing registered tags, not
merely distinct ones. -/
theorem tag_aliasing_marks_unstarted_app_running :
    appStatus (runOps initialState aliasOps) 1 = some .Running ∧
    appPort (runOps initialState aliasOps) 1 = some 0 := by decide

/-- C2 (amended): register inserts the record with status Registered and
port 0, and set_function_app_running writes status Running and the port
together; over every register / upload / start / status sequence from
the empty registry in which each registration uses a container tag that
neither contains nor is contained in an already-registered tag (the
liveness probe is a substring scan of docker ps lines, so an aliased
tag lets a status query mark a never-started app Running with port 0 —
see `tag_aliasing_marks_unstarted_app_running`) and each start allocates
a non-zero port with a succeeding running-status write, a Running record
always has a non-zero port.  Only this direction survives: a non-Running
record can retain a non-zero stale port, since plain status writes
preserve the port column. -/
theorem running_port_invariant :
    (∀ (s : HostState) (name : String) (id time : Nat),
      (add_new_function_app s name id time).registry =
        s.registry ++ [⟨name, id, .Registered, time, 0⟩]) ∧
    (∀ (s : HostState) (id p : Nat) (r : FunctionAppRec), findApp s id = some r →
      appStatus (set_function_app_running s id p) id = some .Running ∧
      appPort (set_function_app_running s id p) id = some p) ∧
    (∀ ops : List Op, opsWFb initialState ops = true →
      ∀ r ∈ (runOps initialState ops).registry, r.status = .Running → r.port ≠ 0) := by
  refine ⟨fun s name id time => rfl,
    fun s id p r h => appStatus_set_running s id r h p, ?_⟩
  intro ops hwf r hr hst
  exact (PortInv_runOps ops initialState PortInv_initial hwf).1 r hr hst

theorem running_port_invariant_witness :
    opsWFb initialState startOps = true ∧
    (∀ r ∈ (runOps initialState startOps).registry,
      r.status = .Running → r.port ≠ 0) :=
  ⟨by decide, running_port_invariant.2.2 startOps (by decide)⟩
